import Mathlib

/-!
Verification of the channel-state client in `channel.go` (stream-chat-go).

The Go code is shallowly embedded: structs become structures, `map[string]interface{}`
payloads become association lists over a JSON value type, slices become lists
(a nil slice inside a struct is the empty list; where nil-ness is observable —
the response envelope and caller-supplied maps — we use `Option`), pointer
fields become `Option`, `time.Time` becomes `Nat`, and the `RestClient`
interface value is an opaque handle (`Nat`): only its identity matters.
Each operation takes the outcome of its single transport call as an explicit
argument (`Except String queryResponse`) and returns, besides the updated
channel and error, the request it issued (`none` when validation failed before
any transport call) and — for operations that write into a caller-supplied
map — the caller's map after the call (Go maps are references, so writes are
visible to the caller).  A Go nil-pointer dereference panic is modelled by the
whole operation returning `none`.
-/

namespace StreamChat

/-- JSON-like values stored in `map[string]interface{}` request payloads. -/
inductive JsonValue where
  | str (s : String)
  | bool (b : Bool)
  | num (n : Int)
  | strList (xs : List String)
  | obj (fields : List (String × JsonValue))

/-- Association-list model of a Go `map[string]interface{}`. -/
abbrev Smap := List (String × JsonValue)

/-- Go map assignment `m[k] = v`: overwrite the binding if the key is present,
otherwise add it. -/
def mapSet : Smap → String → JsonValue → Smap
  | [], k, v => [(k, v)]
  | (k', v') :: rest, k, v =>
    if k' = k then (k, v) :: rest else (k', v') :: mapSet rest k v

/-- Go map lookup `m[k]`. -/
def mapGet (m : Smap) (k : String) : Option JsonValue :=
  (m.find? (fun p => p.1 = k)).map (fun p => p.2)

/-- Go string-map assignment for `map[string]string` (used by UnBanUser). -/
def smapSet : List (String × String) → String → String → List (String × String)
  | [], k, v => [(k, v)]
  | (k', v') :: rest, k, v =>
    if k' = k then (k, v) :: rest else (k', v') :: smapSet rest k v

/-- Lookup in a `map[string]string`. -/
def smapGet (m : List (String × String)) (k : String) : Option String :=
  (m.find? (fun p => p.1 = k)).map (fun p => p.2)

/-- Lookup in a `map[string][]string` (URL query parameters). -/
def paramsGet (m : List (String × List String)) (k : String) : Option (List String) :=
  (m.find? (fun p => p.1 = k)).map (fun p => p.2)

/-- Byte kept unescaped by Go `url.PathEscape` (mode `encodePathSegment`):
alphanumerics, the unreserved marks, and the reserved characters the mode
allows (all but `/ ; , ?`). -/
def pathSegmentUnescaped (c : UInt8) : Bool :=
  (97 ≤ c && c ≤ 122) || (65 ≤ c && c ≤ 90) || (48 ≤ c && c ≤ 57) ||
  c = 45 || c = 95 || c = 46 || c = 126 ||    -- - _ . ~
  c = 36 || c = 38 || c = 43 || c = 58 || c = 61 || c = 64  -- dollar & + : = at

/-- Upper-case hexadecimal digit. -/
def hexDigit (n : Nat) : Char :=
  if n < 10 then Char.ofNat (48 + n) else Char.ofNat (55 + n)

/-- Go `url.PathEscape`: percent-encode every UTF-8 byte that is not allowed
in a path segment. -/
def pathEscape (s : String) : String :=
  String.mk <| (s.toUTF8.toList).foldr
    (fun c acc =>
      if pathSegmentUnescaped c then Char.ofNat c.toNat :: acc
      else '%' :: hexDigit (c.toNat / 16) :: hexDigit (c.toNat % 16) :: acc)
    []

/-- Segment-level part of Go `path.Clean`: drop `.` segments and resolve `..`
segments against the preceding segment (dropping an unmatched `..` when the
path is rooted, keeping it otherwise). -/
def cleanSegs (rooted : Bool) : List String → List String → List String
  | acc, [] => acc.reverse
  | acc, "." :: rest => cleanSegs rooted acc rest
  | acc, ".." :: rest =>
    match acc with
    | [] => if rooted then cleanSegs rooted [] rest else cleanSegs rooted [".."] rest
    | ".." :: _ => cleanSegs rooted (".." :: acc) rest
    | _ :: accTail => cleanSegs rooted accTail rest
  | acc, seg :: rest => cleanSegs rooted (seg :: acc) rest

/-- Go `path.Clean`. -/
def pathClean (p : String) : String :=
  if p = "" then "." else
  let rooted := p.startsWith "/"
  let segs := (p.splitOn "/").filter (fun s => s ≠ "")
  let out := cleanSegs rooted [] segs
  match out with
  | [] => if rooted then "/" else "."
  | _ => (if rooted then "/" else "") ++ String.intercalate "/" out

/-- Go `path.Join`: skip leading empty elements, join the rest with `/`,
then clean. -/
def pathJoin (elems : List String) : String :=
  match elems with
  | [] => ""
  | "" :: rest => pathJoin rest
  | es => pathClean (String.intercalate "/" es)

/-- User record (modelled from the spec: the `User` type is not under `src/`;
the spec gives it an ID, profile fields and a role — only the ID is read by
the channel code). -/
structure User where
  id : String
  name : String := ""
  role : String := ""
deriving DecidableEq, Repr

/-- Message record (modelled from the spec: the `Message` type is not under
`src/`; the spec gives it an ID, text, author reference, parent reference,
rendered body and timestamps — the channel code never reads its fields). -/
structure Message where
  id : String := ""
  text : String := ""
  user : Option User := none
  parentID : String := ""
  html : String := ""
  createdAt : Nat := 0
  updatedAt : Nat := 0
deriving DecidableEq, Repr

/-- Channel configuration (modelled from the spec: `ChannelConfig` is not
under `src/`; the spec describes it as moderation/feature flags — the channel
code never reads its fields). -/
structure ChannelConfig where
  name : String := ""
  automod : String := ""
deriving DecidableEq, Repr

/-- `ChannelMember` from `channel.go`. -/
structure ChannelMember where
  userID : String := ""
  user : Option User := none
  isModerator : Bool := false
  invited : Bool := false
  inviteAcceptedAt : Option Nat := none
  inviteRejectedAt : Option Nat := none
  role : String := ""
  createdAt : Nat := 0
  updatedAt : Nat := 0
deriving DecidableEq, Repr

/-- `Channel` from `channel.go`.  The unexported `client RestClient` interface
field is an opaque transport handle; nil slices are the empty list. -/
structure Channel where
  id : String := ""
  type : String := ""
  cid : String := ""
  config : ChannelConfig := {}
  createdBy : Option User := none
  frozen : Bool := false
  memberCount : Int := 0
  members : List ChannelMember := []
  messages : List Message := []
  read : List User := []
  createdAt : Nat := 0
  updatedAt : Nat := 0
  lastMessageAt : Nat := 0
  client : Nat := 0
deriving DecidableEq, Repr

/-- `ChannelOptions` from `channel.go` (`Data` is a nil-able map). -/
structure ChannelOptions where
  id : String := ""
  type : String := ""
  data : Option Smap := none

/-- The response envelope `queryResponse` from `channel.go`; each field is
`Option` because JSON absence decodes to a nil pointer / nil slice. -/
structure queryResponse where
  channel : Option Channel := none
  messages : Option (List Message) := none
  members : Option (List ChannelMember) := none
  read : Option (List User) := none

/-- `queryResponse.updateChannel`: if the envelope carries a channel object,
replace the whole struct but restore the client handle; then overwrite each
of Members/Messages/Read that is present in the envelope. -/
def queryResponse.updateChannel (q : queryResponse) (ch : Channel) : Channel :=
  let ch :=
    match q.channel with
    | some qc => { qc with client := ch.client }
    | none => ch
  let ch :=
    match q.members with
    | some ms => { ch with members := ms }
    | none => ch
  let ch :=
    match q.messages with
    | some ms => { ch with messages := ms }
    | none => ch
  match q.read with
  | some rs => { ch with read := rs }
  | none => ch

/-- Outcome of the single transport round trip an operation makes: a
transport/remote error, or success whose body decodes to the given envelope
(operations that pass a nil response pointer ignore the envelope). -/
abbrev Transport := Except String queryResponse

/-- HTTP method of a request. -/
inductive Method where
  | post
  | delete
deriving DecidableEq, Repr

/-- The request an operation hands to the transport collaborator. -/
structure Request where
  method : Method
  path : String
  params : Option (List (String × List String)) := none
  body : Option Smap := none

/-- The error an operation propagates from its transport call. -/
def transportError (t : Transport) : Option String :=
  match t with
  | .error e => some e
  | .ok _ => none

/-- Result of `query` (and `refresh`): channel after the call, returned
error, the request issued, and the caller's `data` map after the call
(`none` when the caller passed a nil map — `query` then builds a fresh one
the caller never sees). -/
structure QueryResult where
  channel : Channel
  error : Option String
  request : Request
  callerData : Option Smap

/-- `(*Channel).query` from `channel.go`.  Returns `none` for the Go
nil-pointer panic on `ch.CreatedBy.ID` when `CreatedBy` is nil (the code has
no nil check there). -/
def Channel.query (ch : Channel) (options : Smap) (data : Option Smap) (t : Transport) :
    Option QueryResult :=
  let payload : Smap := [("state", .bool true)]
  let payload := options.foldl (fun m kv => mapSet m kv.1 kv.2) payload
  let d := data.getD []
  match ch.createdBy with
  | none => none
  | some u =>
    let d := mapSet d "created_by" (.obj [("id", .str u.id)])
    let payload := mapSet payload "data" (.obj d)
    let p := pathJoin ["channels", pathEscape ch.type, pathEscape ch.id, "query"]
    let req : Request := { method := .post, path := p, body := some payload }
    let callerData := data.map (fun _ => d)
    match t with
    | .error e => some { channel := ch, error := some e, request := req, callerData }
    | .ok resp =>
      some { channel := resp.updateChannel ch, error := none, request := req, callerData }

/-- Result of `CreateChannel`: the returned channel pointer (`none` when Go
returns nil on validation failure; on a transport error Go still returns the
non-nil partially initialized channel together with the error). -/
structure CreateResult where
  channel : Option Channel
  error : Option String
  request : Option Request
  callerData : Option Smap

/-- `CreateChannel` from `channel.go`. -/
def CreateChannel (client : Nat) (options : ChannelOptions) (userID : String) (t : Transport) :
    Option CreateResult :=
  if options.type = "" then
    some { channel := none, error := some "channel type is empty", request := none,
           callerData := options.data }
  else if options.id = "" then
    some { channel := none, error := some "channel ID is empty", request := none,
           callerData := options.data }
  else if userID = "" then
    some { channel := none, error := some "user ID is empty", request := none,
           callerData := options.data }
  else
    let ch : Channel :=
      { type := options.type, id := options.id, createdBy := some { id := userID },
        client := client }
    let args : Smap := [("watch", .bool false), ("state", .bool true), ("presence", .bool false)]
    match ch.query args options.data t with
    | none => none
    | some qr =>
      some { channel := some qr.channel, error := qr.error, request := some qr.request,
             callerData := qr.callerData }

/-- Result of an operation that returns only an error: the channel after the
call, the error, and the request issued (`none` when validation failed before
any transport call). -/
structure OpResult where
  channel : Channel
  error : Option String
  request : Option Request

/-- `(*Channel).Update` from `channel.go`. -/
def Channel.Update (ch : Channel) (options : Smap) (message : String) (t : Transport) :
    OpResult :=
  let payload : Smap := [("data", .obj options), ("message", .str message)]
  let p := pathJoin ["channels", pathEscape ch.type, pathEscape ch.id]
  { channel := ch, error := transportError t,
    request := some { method := .post, path := p, body := some payload } }

/-- `(*Channel).Delete` from `channel.go`. -/
def Channel.Delete (ch : Channel) (t : Transport) : OpResult :=
  let p := pathJoin ["channels", pathEscape ch.type, pathEscape ch.id]
  { channel := ch, error := transportError t,
    request := some { method := .delete, path := p } }

/-- `(*Channel).Truncate` from `channel.go`. -/
def Channel.Truncate (ch : Channel) (t : Transport) : OpResult :=
  let p := pathJoin ["channels", pathEscape ch.type, pathEscape ch.id, "truncate"]
  { channel := ch, error := transportError t,
    request := some { method := .post, path := p } }

/-- `(*Channel).AddMembers` from `channel.go`. -/
def Channel.AddMembers (ch : Channel) (userIDs : List String) (t : Transport) : OpResult :=
  if userIDs.length = 0 then
    { channel := ch, error := some "user IDs are empty", request := none }
  else
    let data : Smap := [("add_members", .strList userIDs)]
    let p := pathJoin ["channels", pathEscape ch.type, pathEscape ch.id]
    { channel := ch, error := transportError t,
      request := some { method := .post, path := p, body := some data } }

/-- `(*Channel).RemoveMembers` from `channel.go`: the only list-mutating
operation besides `query`; it decodes the response envelope and merges it. -/
def Channel.RemoveMembers (ch : Channel) (userIDs : List String) (t : Transport) : OpResult :=
  if userIDs.length = 0 then
    { channel := ch, error := some "user IDs are empty", request := none }
  else
    let data : Smap := [("remove_members", .strList userIDs)]
    let p := pathJoin ["channels", pathEscape ch.type, pathEscape ch.id]
    let req : Request := { method := .post, path := p, body := some data }
    match t with
    | .error e => { channel := ch, error := some e, request := some req }
    | .ok resp => { channel := resp.updateChannel ch, error := none, request := some req }

/-- `(*Channel).AddModerators` from `channel.go`. -/
def Channel.AddModerators (ch : Channel) (userIDs : List String) (t : Transport) : OpResult :=
  if userIDs.length = 0 then
    { channel := ch, error := some "user IDs are empty", request := none }
  else
    let data : Smap := [("add_moderators", .strList userIDs)]
    let p := pathJoin ["channels", pathEscape ch.type, pathEscape ch.id]
    { channel := ch, error := transportError t,
      request := some { method := .post, path := p, body := some data } }

/-- `(*Channel).DemoteModerators` from `channel.go`. -/
def Channel.DemoteModerators (ch : Channel) (userIDs : List String) (t : Transport) : OpResult :=
  if userIDs.length = 0 then
    { channel := ch, error := some "user IDs are empty", request := none }
  else
    let data : Smap := [("demote_moderators", .strList userIDs)]
    let p := pathJoin ["channels", pathEscape ch.type, pathEscape ch.id]
    { channel := ch, error := transportError t,
      request := some { method := .post, path := p, body := some data } }

/-- Result of an operation that writes into a caller-supplied
`map[string]interface{}`: `callerOptions` is the caller's map after the call
(`none` when the caller passed nil and the operation allocated a fresh map
the caller never sees). -/
structure MapWriteResult where
  channel : Channel
  error : Option String
  request : Option Request
  callerOptions : Option Smap

/-- `(*Channel).MarkRead` from `channel.go`: writes the `user` entry into the
caller's options map, then posts it. -/
def Channel.MarkRead (ch : Channel) (userID : String) (options : Option Smap) (t : Transport) :
    MapWriteResult :=
  if userID = "" then
    { channel := ch, error := some "user ID must be not empty", request := none,
      callerOptions := options }
  else
    let opts := options.getD []
    let p := pathJoin ["channels", pathEscape ch.type, pathEscape ch.id, "read"]
    let opts := mapSet opts "user" (.obj [("id", .str userID)])
    { channel := ch, error := transportError t,
      request := some { method := .post, path := p, body := some opts },
      callerOptions := options.map (fun _ => opts) }

/-- `(*Channel).BanUser` from `channel.go`: writes the channel-scoping
entries into the caller's options map, then posts it to the fixed
moderation path. -/
def Channel.BanUser (ch : Channel) (targetID userID : String) (options : Option Smap)
    (t : Transport) : MapWriteResult :=
  if targetID = "" then
    { channel := ch, error := some "target ID is empty", request := none,
      callerOptions := options }
  else if userID = "" then
    { channel := ch, error := some "user ID is empty", request := none,
      callerOptions := options }
  else
    let opts := options.getD []
    let opts := mapSet opts "type" (.str ch.type)
    let opts := mapSet opts "id" (.str ch.id)
    let opts := mapSet opts "target_user_id" (.str targetID)
    let opts := mapSet opts "user_id" (.str userID)
    { channel := ch, error := transportError t,
      request := some { method := .post, path := "moderation/ban", body := some opts },
      callerOptions := options.map (fun _ => opts) }

/-- Result of `UnBanUser`, whose caller-supplied map is a `map[string]string`. -/
structure UnBanResult where
  channel : Channel
  error : Option String
  request : Option Request
  callerOptions : Option (List (String × String))

/-- `(*Channel).UnBanUser` from `channel.go`: writes the channel-scoping
entries into the caller's string map, converts it to query parameters with
singleton value lists, and issues a DELETE with a nil body. -/
def Channel.UnBanUser (ch : Channel) (targetID : String)
    (options : Option (List (String × String))) (t : Transport) : UnBanResult :=
  if targetID = "" then
    { channel := ch, error := some "target ID must be not empty", request := none,
      callerOptions := options }
  else
    let opts := options.getD []
    let opts := smapSet opts "type" ch.type
    let opts := smapSet opts "id" ch.id
    let opts := smapSet opts "target_user_id" targetID
    let params := opts.map (fun kv => (kv.1, [kv.2]))
    { channel := ch, error := transportError t,
      request := some { method := .delete, path := "moderation/ban", params := some params },
      callerOptions := options.map (fun _ => opts) }

/-- `(*Channel).refresh` from `channel.go`: re-runs `query` with the
standard watch/state/presence options and a nil data map. -/
def Channel.refresh (ch : Channel) (t : Transport) : Option QueryResult :=
  ch.query [("watch", .bool false), ("state", .bool true), ("presence", .bool false)] none t

/-! ### Helper lemmas about the map model -/

theorem mapGet_mapSet_self (m : Smap) (k : String) (v : JsonValue) :
    mapGet (mapSet m k v) k = some v := by
  induction m with
  | nil => simp [mapSet, mapGet, List.find?]
  | cons p rest ih =>
    obtain ⟨k', v'⟩ := p
    by_cases h : k' = k
    · simp [mapSet, h, mapGet, List.find?]
    · simp only [mapSet, if_neg h]
      simpa [mapGet, List.find?, h] using ih

theorem mapGet_mapSet_of_ne {m : Smap} {k k' : String} {v : JsonValue} (h : k' ≠ k) :
    mapGet (mapSet m k v) k' = mapGet m k' := by
  have h' : k ≠ k' := Ne.symm h
  induction m with
  | nil => simp [mapSet, mapGet, List.find?, h']
  | cons p rest ih =>
    obtain ⟨k'', v''⟩ := p
    by_cases h2 : k'' = k
    · subst h2
      simp [mapSet, mapGet, List.find?, h']
    · simp only [mapSet, if_neg h2]
      by_cases h3 : k'' = k'
      · simp [mapGet, List.find?, h3]
      · simpa [mapGet, List.find?, h3] using ih

theorem smapGet_smapSet_self (m : List (String × String)) (k v : String) :
    smapGet (smapSet m k v) k = some v := by
  induction m with
  | nil => simp [smapSet, smapGet, List.find?]
  | cons p rest ih =>
    obtain ⟨k', v'⟩ := p
    by_cases h : k' = k
    · simp [smapSet, h, smapGet, List.find?]
    · simp only [smapSet, if_neg h]
      simpa [smapGet, List.find?, h] using ih

theorem smapGet_smapSet_of_ne {m : List (String × String)} {k k' v : String} (h : k' ≠ k) :
    smapGet (smapSet m k v) k' = smapGet m k' := by
  have h' : k ≠ k' := Ne.symm h
  induction m with
  | nil => simp [smapSet, smapGet, List.find?, h']
  | cons p rest ih =>
    obtain ⟨k'', v''⟩ := p
    by_cases h2 : k'' = k
    · subst h2
      simp [smapSet, smapGet, List.find?, h']
    · simp only [smapSet, if_neg h2]
      by_cases h3 : k'' = k'
      · simp [smapGet, List.find?, h3]
      · simpa [smapGet, List.find?, h3] using ih

theorem paramsGet_map_singleton (m : List (String × String)) (k : String) :
    paramsGet (m.map (fun kv => (kv.1, [kv.2]))) k = (smapGet m k).map (fun v => [v]) := by
  induction m with
  | nil => simp [paramsGet, smapGet, List.find?]
  | cons p rest ih =>
    obtain ⟨k', v'⟩ := p
    by_cases h : k' = k
    · simp [paramsGet, smapGet, List.find?, h]
    · simpa [paramsGet, smapGet, List.find?, h] using ih

/-- The JSON body of an issued request (empty when no request or nil body). -/
def requestBody (r : Option Request) : Smap :=
  (r.bind Request.body).getD []

/-- The query parameters of an issued request (empty when no request or nil
parameters). -/
def requestParams (r : Option Request) : List (String × List String) :=
  (r.bind Request.params).getD []

/-- The caller's `data` map after a `query` call (empty when the call
panicked or the caller passed a nil map). -/
def queryCallerData (r : Option QueryResult) : Smap :=
  (r.bind QueryResult.callerData).getD []

/-- A merge whose envelope carries a channel object takes the creator
reference from that object. -/
theorem updateChannel_createdBy_of_channel_some {q : queryResponse} {qc : Channel}
    (h : q.channel = some qc) (ch : Channel) :
    (q.updateChannel ch).createdBy = qc.createdBy := by
  obtain ⟨c, msgs, mems, rds⟩ := q
  simp only at h
  subst h
  cases mems <;> cases msgs <;> cases rds <;> simp [queryResponse.updateChannel]

/-! ### Sample data used by witnesses and counterexamples -/

/-- A concrete local channel with cached members, messages and read state. -/
def chW : Channel :=
  { id := "general", type := "messaging", cid := "messaging:general",
    createdBy := some { id := "alice" }, memberCount := 1,
    members := [{ userID := "alice" }],
    messages := [{ id := "m1", text := "hi" }],
    read := [{ id := "bob" }], client := 7 }

/-- A concrete response channel object as decoded from an envelope: its own
list fields are nil (empty) and its client handle is the zero value. -/
def chResp : Channel :=
  { id := "general", type := "messaging", cid := "messaging:general",
    createdBy := some { id := "alice" }, frozen := true, memberCount := 2 }

/-- A concrete partial envelope: members present, channel object, messages
and read absent. -/
def qPartial : queryResponse := { members := some [{ userID := "carol" }] }

/-! ### Claims -/

/-- Claim C2: for every previous Channel and every response envelope whose channel
object is non-nil, the merged Channel keeps the previous client (transport)
handle and takes every metadata field (ID, Type, CID, Config, CreatedBy,
Frozen, MemberCount, timestamps) from the response's channel object. -/
theorem merge_preserves_client_replaces_metadata (ch : Channel) (q : queryResponse)
    (qc : Channel) (h : q.channel = some qc) :
    (q.updateChannel ch).client = ch.client ∧
    (q.updateChannel ch).id = qc.id ∧
    (q.updateChannel ch).type = qc.type ∧
    (q.updateChannel ch).cid = qc.cid ∧
    (q.updateChannel ch).config = qc.config ∧
    (q.updateChannel ch).createdBy = qc.createdBy ∧
    (q.updateChannel ch).frozen = qc.frozen ∧
    (q.updateChannel ch).memberCount = qc.memberCount ∧
    (q.updateChannel ch).createdAt = qc.createdAt ∧
    (q.updateChannel ch).updatedAt = qc.updatedAt ∧
    (q.updateChannel ch).lastMessageAt = qc.lastMessageAt := by
  obtain ⟨c, msgs, mems, rds⟩ := q
  simp only at h
  subst h
  cases mems <;> cases msgs <;> cases rds <;> simp [queryResponse.updateChannel]

/-- Witness for `merge_preserves_client_replaces_metadata` at a concrete
channel and envelope. -/
theorem merge_preserves_client_replaces_metadata_witness :
    (({ channel := some chResp } : queryResponse).updateChannel chW).client = chW.client ∧
    (({ channel := some chResp } : queryResponse).updateChannel chW).id = chResp.id ∧
    (({ channel := some chResp } : queryResponse).updateChannel chW).type = chResp.type ∧
    (({ channel := some chResp } : queryResponse).updateChannel chW).cid = chResp.cid ∧
    (({ channel := some chResp } : queryResponse).updateChannel chW).config = chResp.config ∧
    (({ channel := some chResp } : queryResponse).updateChannel chW).createdBy = chResp.createdBy ∧
    (({ channel := some chResp } : queryResponse).updateChannel chW).frozen = chResp.frozen ∧
    (({ channel := some chResp } : queryResponse).updateChannel chW).memberCount = chResp.memberCount ∧
    (({ channel := some chResp } : queryResponse).updateChannel chW).createdAt = chResp.createdAt ∧
    (({ channel := some chResp } : queryResponse).updateChannel chW).updatedAt = chResp.updatedAt ∧
    (({ channel := some chResp } : queryResponse).updateChannel chW).lastMessageAt = chResp.lastMessageAt :=
  merge_preserves_client_replaces_metadata chW { channel := some chResp } chResp rfl

/-- Claim C1 counterexample: an envelope with members present, messages/read absent
but a channel object also present does not leave Messages/Read at their
pre-merge values — the wholesale struct replacement takes them from the
channel object first. -/
theorem merge_members_only_counterexample :
    ¬ ((({ channel := some chResp, members := some [] } : queryResponse).updateChannel chW).messages
         = chW.messages ∧
       (({ channel := some chResp, members := some [] } : queryResponse).updateChannel chW).read
         = chW.read) := by decide

/-- Claim C1 amended: for an envelope with members present and messages/read
absent, the merged Messages and Read equal the pre-merge values when the
envelope's channel object is absent; when a channel object is present they
are taken from that object's own messages/read lists instead. -/
theorem merge_absent_lists_amended (ch : Channel) (q : queryResponse)
    (hm : q.members.isSome) (hmsg : q.messages = none) (hrd : q.read = none) :
    (q.updateChannel ch).messages = (q.channel.map Channel.messages).getD ch.messages ∧
    (q.updateChannel ch).read = (q.channel.map Channel.read).getD ch.read := by
  obtain ⟨c, msgs, mems, rds⟩ := q
  simp only at hmsg hrd
  subst hmsg
  subst hrd
  cases c <;> cases mems <;> simp [queryResponse.updateChannel]

/-- Witness for `merge_absent_lists_amended` at a concrete channel and
partial envelope. -/
theorem merge_absent_lists_amended_witness :
    (qPartial.updateChannel chW).messages = (qPartial.channel.map Channel.messages).getD chW.messages ∧
    (qPartial.updateChannel chW).read = (qPartial.channel.map Channel.read).getD chW.read :=
  merge_absent_lists_amended chW qPartial rfl rfl rfl

/-- Claim C7: for every envelope whose channel object is nil, the merge leaves all
metadata fields (and the client handle) unchanged and replaces exactly those
of Members/Messages/Read that are present in the envelope. -/
theorem merge_nil_channel_object (ch : Channel) (q : queryResponse)
    (h : q.channel = none) :
    (q.updateChannel ch).id = ch.id ∧
    (q.updateChannel ch).type = ch.type ∧
    (q.updateChannel ch).cid = ch.cid ∧
    (q.updateChannel ch).config = ch.config ∧
    (q.updateChannel ch).createdBy = ch.createdBy ∧
    (q.updateChannel ch).frozen = ch.frozen ∧
    (q.updateChannel ch).memberCount = ch.memberCount ∧
    (q.updateChannel ch).createdAt = ch.createdAt ∧
    (q.updateChannel ch).updatedAt = ch.updatedAt ∧
    (q.updateChannel ch).lastMessageAt = ch.lastMessageAt ∧
    (q.updateChannel ch).client = ch.client ∧
    (q.updateChannel ch).members = q.members.getD ch.members ∧
    (q.updateChannel ch).messages = q.messages.getD ch.messages ∧
    (q.updateChannel ch).read = q.read.getD ch.read := by
  obtain ⟨c, msgs, mems, rds⟩ := q
  simp only at h
  subst h
  cases mems <;> cases msgs <;> cases rds <;> simp [queryResponse.updateChannel]

/-- Witness for `merge_nil_channel_object` at a concrete channel and a
members-only envelope. -/
theorem merge_nil_channel_object_witness :
    (qPartial.updateChannel chW).id = chW.id ∧
    (qPartial.updateChannel chW).type = chW.type ∧
    (qPartial.updateChannel chW).cid = chW.cid ∧
    (qPartial.updateChannel chW).config = chW.config ∧
    (qPartial.updateChannel chW).createdBy = chW.createdBy ∧
    (qPartial.updateChannel chW).frozen = chW.frozen ∧
    (qPartial.updateChannel chW).memberCount = chW.memberCount ∧
    (qPartial.updateChannel chW).createdAt = chW.createdAt ∧
    (qPartial.updateChannel chW).updatedAt = chW.updatedAt ∧
    (qPartial.updateChannel chW).lastMessageAt = chW.lastMessageAt ∧
    (qPartial.updateChannel chW).client = chW.client ∧
    (qPartial.updateChannel chW).members = qPartial.members.getD chW.members ∧
    (qPartial.updateChannel chW).messages = qPartial.messages.getD chW.messages ∧
    (qPartial.updateChannel chW).read = qPartial.read.getD chW.read :=
  merge_nil_channel_object chW qPartial rfl

/-! ### Per-operation frame helpers -/

theorem Update_channel_eq (ch : Channel) (o : Smap) (msg : String) (t : Transport) :
    (ch.Update o msg t).channel = ch := rfl

theorem Delete_channel_eq (ch : Channel) (t : Transport) :
    (ch.Delete t).channel = ch := rfl

theorem Truncate_channel_eq (ch : Channel) (t : Transport) :
    (ch.Truncate t).channel = ch := rfl

theorem AddMembers_channel_eq (ch : Channel) (ids : List String) (t : Transport) :
    (ch.AddMembers ids t).channel = ch := by
  unfold Channel.AddMembers
  split <;> rfl

theorem AddModerators_channel_eq (ch : Channel) (ids : List String) (t : Transport) :
    (ch.AddModerators ids t).channel = ch := by
  unfold Channel.AddModerators
  split <;> rfl

theorem DemoteModerators_channel_eq (ch : Channel) (ids : List String) (t : Transport) :
    (ch.DemoteModerators ids t).channel = ch := by
  unfold Channel.DemoteModerators
  split <;> rfl

theorem MarkRead_channel_eq (ch : Channel) (uid : String) (o : Option Smap) (t : Transport) :
    (ch.MarkRead uid o t).channel = ch := by
  unfold Channel.MarkRead
  split <;> rfl

theorem BanUser_channel_eq (ch : Channel) (a b : String) (o : Option Smap) (t : Transport) :
    (ch.BanUser a b o t).channel = ch := by
  unfold Channel.BanUser
  split
  · rfl
  · split <;> rfl

theorem UnBanUser_channel_eq (ch : Channel) (a : String)
    (o : Option (List (String × String))) (t : Transport) :
    (ch.UnBanUser a o t).channel = ch := by
  unfold Channel.UnBanUser
  split <;> rfl

theorem RemoveMembers_error_channel_eq (ch : Channel) (ids : List String) (e : String) :
    (ch.RemoveMembers ids (.error e)).channel = ch := by
  unfold Channel.RemoveMembers
  split <;> rfl

/-- Claim C4: Update, AddModerators, DemoteModerators, MarkRead, BanUser and
UnBanUser, called with valid arguments and a successful transport call,
leave the handle's Members, Messages and Read fields exactly equal to their
pre-call values (none of them invokes the merge). -/
theorem no_merge_ops_preserve_lists (ch : Channel) (opts : Smap) (msg : String)
    (ids : List String) (target uid : String) (mo : Option Smap)
    (so : Option (List (String × String))) (resp : queryResponse)
    (hids : ids.length ≠ 0) (htarget : target ≠ "") (huid : uid ≠ "") :
    ((ch.Update opts msg (.ok resp)).channel.members = ch.members ∧
     (ch.Update opts msg (.ok resp)).channel.messages = ch.messages ∧
     (ch.Update opts msg (.ok resp)).channel.read = ch.read) ∧
    ((ch.AddModerators ids (.ok resp)).channel.members = ch.members ∧
     (ch.AddModerators ids (.ok resp)).channel.messages = ch.messages ∧
     (ch.AddModerators ids (.ok resp)).channel.read = ch.read) ∧
    ((ch.DemoteModerators ids (.ok resp)).channel.members = ch.members ∧
     (ch.DemoteModerators ids (.ok resp)).channel.messages = ch.messages ∧
     (ch.DemoteModerators ids (.ok resp)).channel.read = ch.read) ∧
    ((ch.MarkRead uid mo (.ok resp)).channel.members = ch.members ∧
     (ch.MarkRead uid mo (.ok resp)).channel.messages = ch.messages ∧
     (ch.MarkRead uid mo (.ok resp)).channel.read = ch.read) ∧
    ((ch.BanUser target uid mo (.ok resp)).channel.members = ch.members ∧
     (ch.BanUser target uid mo (.ok resp)).channel.messages = ch.messages ∧
     (ch.BanUser target uid mo (.ok resp)).channel.read = ch.read) ∧
    ((ch.UnBanUser target so (.ok resp)).channel.members = ch.members ∧
     (ch.UnBanUser target so (.ok resp)).channel.messages = ch.messages ∧
     (ch.UnBanUser target so (.ok resp)).channel.read = ch.read) := by
  simp [Update_channel_eq, AddModerators_channel_eq, DemoteModerators_channel_eq,
        MarkRead_channel_eq, BanUser_channel_eq, UnBanUser_channel_eq]

/-- Witness for `no_merge_ops_preserve_lists` at concrete arguments. -/
theorem no_merge_ops_preserve_lists_witness :
    ((chW.Update [] "note" (.ok {})).channel.members = chW.members ∧
     (chW.Update [] "note" (.ok {})).channel.messages = chW.messages ∧
     (chW.Update [] "note" (.ok {})).channel.read = chW.read) ∧
    ((chW.AddModerators ["dave"] (.ok {})).channel.members = chW.members ∧
     (chW.AddModerators ["dave"] (.ok {})).channel.messages = chW.messages ∧
     (chW.AddModerators ["dave"] (.ok {})).channel.read = chW.read) ∧
    ((chW.DemoteModerators ["dave"] (.ok {})).channel.members = chW.members ∧
     (chW.DemoteModerators ["dave"] (.ok {})).channel.messages = chW.messages ∧
     (chW.DemoteModerators ["dave"] (.ok {})).channel.read = chW.read) ∧
    ((chW.MarkRead "alice" none (.ok {})).channel.members = chW.members ∧
     (chW.MarkRead "alice" none (.ok {})).channel.messages = chW.messages ∧
     (chW.MarkRead "alice" none (.ok {})).channel.read = chW.read) ∧
    ((chW.BanUser "bob" "alice" none (.ok {})).channel.members = chW.members ∧
     (chW.BanUser "bob" "alice" none (.ok {})).channel.messages = chW.messages ∧
     (chW.BanUser "bob" "alice" none (.ok {})).channel.read = chW.read) ∧
    ((chW.UnBanUser "bob" none (.ok {})).channel.members = chW.members ∧
     (chW.UnBanUser "bob" none (.ok {})).channel.messages = chW.messages ∧
     (chW.UnBanUser "bob" none (.ok {})).channel.read = chW.read) :=
  no_merge_ops_preserve_lists chW [] "note" ["dave"] "bob" "alice" none none {}
    (by decide) (by decide) (by decide)

/-- Claim C5: AddMembers, RemoveMembers, AddModerators and DemoteModerators with an
empty user-ID list return the validation error, issue no transport request,
and leave the channel unmodified. -/
theorem empty_user_ids_fail_closed (ch : Channel) (t : Transport) :
    ((ch.AddMembers [] t).error = some "user IDs are empty" ∧
     (ch.AddMembers [] t).request = none ∧
     (ch.AddMembers [] t).channel = ch) ∧
    ((ch.RemoveMembers [] t).error = some "user IDs are empty" ∧
     (ch.RemoveMembers [] t).request = none ∧
     (ch.RemoveMembers [] t).channel = ch) ∧
    ((ch.AddModerators [] t).error = some "user IDs are empty" ∧
     (ch.AddModerators [] t).request = none ∧
     (ch.AddModerators [] t).channel = ch) ∧
    ((ch.DemoteModerators [] t).error = some "user IDs are empty" ∧
     (ch.DemoteModerators [] t).request = none ∧
     (ch.DemoteModerators [] t).channel = ch) := by
  simp [Channel.AddMembers, Channel.RemoveMembers, Channel.AddModerators,
        Channel.DemoteModerators]

/-- Claim C6: when the transport call fails, every operation leaves the channel
handle in its pre-call state; for the merging operations (`query`,
`RemoveMembers`) the merge is never reached, and `query` propagates the
error unchanged. -/
theorem transport_error_leaves_state (ch : Channel) (u : User) (opts : Smap)
    (data : Option Smap) (ids : List String) (msg : String) (mo : Option Smap)
    (so : Option (List (String × String))) (target uid e : String)
    (hcb : ch.createdBy = some u) :
    (ch.query opts data (.error e)).map (fun r => (r.channel, r.error)) = some (ch, some e) ∧
    (ch.RemoveMembers ids (.error e)).channel = ch ∧
    (ch.Update opts msg (.error e)).channel = ch ∧
    (ch.Delete (.error e)).channel = ch ∧
    (ch.Truncate (.error e)).channel = ch ∧
    (ch.AddMembers ids (.error e)).channel = ch ∧
    (ch.AddModerators ids (.error e)).channel = ch ∧
    (ch.DemoteModerators ids (.error e)).channel = ch ∧
    (ch.MarkRead uid mo (.error e)).channel = ch ∧
    (ch.BanUser target uid mo (.error e)).channel = ch ∧
    (ch.UnBanUser target so (.error e)).channel = ch := by
  refine ⟨?_, RemoveMembers_error_channel_eq ch ids e, Update_channel_eq ch opts msg _,
    Delete_channel_eq ch _, Truncate_channel_eq ch _, AddMembers_channel_eq ch ids _,
    AddModerators_channel_eq ch ids _, DemoteModerators_channel_eq ch ids _,
    MarkRead_channel_eq ch uid mo _, BanUser_channel_eq ch target uid mo _,
    UnBanUser_channel_eq ch target so _⟩
  simp [Channel.query, hcb]

/-- Witness for `transport_error_leaves_state` at concrete arguments. -/
theorem transport_error_leaves_state_witness :
    (chW.query [] none (.error "boom")).map (fun r => (r.channel, r.error)) =
      some (chW, some "boom") ∧
    (chW.RemoveMembers ["dave"] (.error "boom")).channel = chW ∧
    (chW.Update [] "note" (.error "boom")).channel = chW ∧
    (chW.Delete (.error "boom")).channel = chW ∧
    (chW.Truncate (.error "boom")).channel = chW ∧
    (chW.AddMembers ["dave"] (.error "boom")).channel = chW ∧
    (chW.AddModerators ["dave"] (.error "boom")).channel = chW ∧
    (chW.DemoteModerators ["dave"] (.error "boom")).channel = chW ∧
    (chW.MarkRead "alice" none (.error "boom")).channel = chW ∧
    (chW.BanUser "bob" "alice" none (.error "boom")).channel = chW ∧
    (chW.UnBanUser "bob" none (.error "boom")).channel = chW :=
  transport_error_leaves_state chW { id := "alice" } [] none ["dave"] "note" none none
    "bob" "alice" "boom" rfl

/-- Claim C8: BanUser posts to the fixed path moderation/ban with a nil-params body
carrying type, id, target_user_id and user_id (channel scope, target and
acting user) merged at the top level with the caller's options, while
UnBanUser issues a DELETE to moderation/ban passing type, id and
target_user_id as query parameters with a nil body. -/
theorem ban_unban_request_shape (ch : Channel) (target uid : String) (m : Smap)
    (sm : List (String × String)) (t t' : Transport) (k : String)
    (htarget : target ≠ "") (huid : uid ≠ "")
    (hk1 : k ≠ "type") (hk2 : k ≠ "id") (hk3 : k ≠ "target_user_id") (hk4 : k ≠ "user_id") :
    ((ch.BanUser target uid (some m) t).request.map Request.method = some Method.post ∧
     (ch.BanUser target uid (some m) t).request.map Request.path = some "moderation/ban" ∧
     (ch.BanUser target uid (some m) t).request.map Request.params = some none ∧
     mapGet (requestBody (ch.BanUser target uid (some m) t).request) "type" =
       some (.str ch.type) ∧
     mapGet (requestBody (ch.BanUser target uid (some m) t).request) "id" =
       some (.str ch.id) ∧
     mapGet (requestBody (ch.BanUser target uid (some m) t).request) "target_user_id" =
       some (.str target) ∧
     mapGet (requestBody (ch.BanUser target uid (some m) t).request) "user_id" =
       some (.str uid) ∧
     mapGet (requestBody (ch.BanUser target uid (some m) t).request) k = mapGet m k) ∧
    ((ch.UnBanUser target (some sm) t').request.map Request.method = some Method.delete ∧
     (ch.UnBanUser target (some sm) t').request.map Request.path = some "moderation/ban" ∧
     (ch.UnBanUser target (some sm) t').request.map Request.body = some none ∧
     paramsGet (requestParams (ch.UnBanUser target (some sm) t').request) "type" =
       some [ch.type] ∧
     paramsGet (requestParams (ch.UnBanUser target (some sm) t').request) "id" =
       some [ch.id] ∧
     paramsGet (requestParams (ch.UnBanUser target (some sm) t').request) "target_user_id" =
       some [target]) := by
  have hreq : (ch.BanUser target uid (some m) t).request =
      some { method := .post, path := "moderation/ban", params := none,
             body := some (mapSet (mapSet (mapSet (mapSet m "type" (.str ch.type))
               "id" (.str ch.id)) "target_user_id" (.str target)) "user_id" (.str uid)) } := by
    unfold Channel.BanUser
    rw [if_neg htarget, if_neg huid]
    rfl
  have hreq' : (ch.UnBanUser target (some sm) t').request =
      some { method := .delete, path := "moderation/ban",
             params := some ((smapSet (smapSet (smapSet sm "type" ch.type) "id" ch.id)
               "target_user_id" target).map (fun kv => (kv.1, [kv.2]))),
             body := none } := by
    unfold Channel.UnBanUser
    rw [if_neg htarget]
    rfl
  have hb : requestBody (ch.BanUser target uid (some m) t).request =
      mapSet (mapSet (mapSet (mapSet m "type" (.str ch.type)) "id" (.str ch.id))
        "target_user_id" (.str target)) "user_id" (.str uid) := by
    rw [hreq]
    rfl
  have hp : requestParams (ch.UnBanUser target (some sm) t').request =
      (smapSet (smapSet (smapSet sm "type" ch.type) "id" ch.id) "target_user_id" target).map
        (fun kv => (kv.1, [kv.2])) := by
    rw [hreq']
    rfl
  refine ⟨⟨?_, ?_, ?_, ?_, ?_, ?_, ?_, ?_⟩, ?_, ?_, ?_, ?_, ?_, ?_⟩
  · rw [hreq]
    rfl
  · rw [hreq]
    rfl
  · rw [hreq]
    rfl
  · rw [hb, mapGet_mapSet_of_ne (by decide), mapGet_mapSet_of_ne (by decide),
        mapGet_mapSet_of_ne (by decide), mapGet_mapSet_self]
  · rw [hb, mapGet_mapSet_of_ne (by decide), mapGet_mapSet_of_ne (by decide),
        mapGet_mapSet_self]
  · rw [hb, mapGet_mapSet_of_ne (by decide), mapGet_mapSet_self]
  · rw [hb, mapGet_mapSet_self]
  · rw [hb, mapGet_mapSet_of_ne hk4, mapGet_mapSet_of_ne hk3, mapGet_mapSet_of_ne hk2,
        mapGet_mapSet_of_ne hk1]
  · rw [hreq']
    rfl
  · rw [hreq']
    rfl
  · rw [hreq']
    rfl
  · rw [hp, paramsGet_map_singleton, smapGet_smapSet_of_ne (by decide),
        smapGet_smapSet_of_ne (by decide), smapGet_smapSet_self]
    rfl
  · rw [hp, paramsGet_map_singleton, smapGet_smapSet_of_ne (by decide),
        smapGet_smapSet_self]
    rfl
  · rw [hp, paramsGet_map_singleton, smapGet_smapSet_self]
    rfl

/-- Witness for `ban_unban_request_shape` at concrete arguments (the caller's
map already holds a `type` entry, exhibiting the overwrite, and a `reason`
entry, exhibiting the top-level merge). -/
theorem ban_unban_request_shape_witness :
    ((chW.BanUser "bob" "alice" (some [("reason", .str "spam"), ("type", .str "stale")])
        (.ok {})).request.map Request.method = some Method.post ∧
     (chW.BanUser "bob" "alice" (some [("reason", .str "spam"), ("type", .str "stale")])
        (.ok {})).request.map Request.path = some "moderation/ban" ∧
     (chW.BanUser "bob" "alice" (some [("reason", .str "spam"), ("type", .str "stale")])
        (.ok {})).request.map Request.params = some none ∧
     mapGet (requestBody (chW.BanUser "bob" "alice"
        (some [("reason", .str "spam"), ("type", .str "stale")]) (.ok {})).request) "type" =
       some (.str chW.type) ∧
     mapGet (requestBody (chW.BanUser "bob" "alice"
        (some [("reason", .str "spam"), ("type", .str "stale")]) (.ok {})).request) "id" =
       some (.str chW.id) ∧
     mapGet (requestBody (chW.BanUser "bob" "alice"
        (some [("reason", .str "spam"), ("type", .str "stale")]) (.ok {})).request)
        "target_user_id" = some (.str "bob") ∧
     mapGet (requestBody (chW.BanUser "bob" "alice"
        (some [("reason", .str "spam"), ("type", .str "stale")]) (.ok {})).request)
        "user_id" = some (.str "alice") ∧
     mapGet (requestBody (chW.BanUser "bob" "alice"
        (some [("reason", .str "spam"), ("type", .str "stale")]) (.ok {})).request) "reason" =
       mapGet [("reason", .str "spam"), ("type", .str "stale")] "reason") ∧
    ((chW.UnBanUser "bob" (some [("x", "y")]) (.ok {})).request.map Request.method =
       some Method.delete ∧
     (chW.UnBanUser "bob" (some [("x", "y")]) (.ok {})).request.map Request.path =
       some "moderation/ban" ∧
     (chW.UnBanUser "bob" (some [("x", "y")]) (.ok {})).request.map Request.body =
       some none ∧
     paramsGet (requestParams (chW.UnBanUser "bob" (some [("x", "y")]) (.ok {})).request)
       "type" = some [chW.type] ∧
     paramsGet (requestParams (chW.UnBanUser "bob" (some [("x", "y")]) (.ok {})).request)
       "id" = some [chW.id] ∧
     paramsGet (requestParams (chW.UnBanUser "bob" (some [("x", "y")]) (.ok {})).request)
       "target_user_id" = some ["bob"]) :=
  ban_unban_request_shape chW "bob" "alice" [("reason", .str "spam"), ("type", .str "stale")]
    [("x", "y")] (.ok {}) (.ok {}) "reason" (by decide) (by decide) (by decide) (by decide)
    (by decide) (by decide)

/-- A response channel object whose created_by is nil, as decoded from an
envelope that omits the creator. -/
def chNoCreator : Channel :=
  { id := "general", type := "messaging", cid := "messaging:general" }

/-- Claim C9: `query` (hence `CreateChannel` and `refresh`) dereferences CreatedBy
with no nil check: it completes (for any transport outcome) exactly when
CreatedBy is non-nil, and a merge whose response channel object has a nil
created_by yields a reachable state from which `refresh` hits the nil
dereference (modelled as `none`). -/
theorem query_nil_created_by_panic (ch : Channel) (opts : Smap) (data : Option Smap)
    (t t' : Transport) (q : queryResponse) (qc : Channel)
    (hqc : q.channel = some qc) (hnil : qc.createdBy = none) :
    ((ch.query opts data t).isSome ↔ ch.createdBy.isSome) ∧
    (q.updateChannel ch).refresh t' = none := by
  constructor
  · cases hcb : ch.createdBy <;> cases t <;> simp [Channel.query, hcb]
  · have h2 : (q.updateChannel ch).createdBy = none := by
      rw [updateChannel_createdBy_of_channel_some hqc, hnil]
    unfold Channel.refresh Channel.query
    rw [h2]

/-- Witness for `query_nil_created_by_panic` at a concrete channel and a
concrete creator-less envelope. -/
theorem query_nil_created_by_panic_witness :
    ((chW.query [] none (.ok {})).isSome ↔ chW.createdBy.isSome) ∧
    (({ channel := some chNoCreator } : queryResponse).updateChannel chW).refresh (.ok {}) =
      none :=
  query_nil_created_by_panic chW [] none (.ok {}) (.ok {})
    { channel := some chNoCreator } chNoCreator rfl rfl

/-- Claim C10: BanUser, UnBanUser and MarkRead write their channel-scoping entries
into the caller-supplied map in place (visible to the caller after the call,
overwriting previous values under those keys), and `query` inserts
`created_by` into the caller's data map. -/
theorem ops_mutate_caller_maps (ch : Channel) (u : User) (opts m mo d : Smap)
    (sm : List (String × String)) (target uid : String) (t t1 t2 t3 : Transport)
    (hcb : ch.createdBy = some u) (htarget : target ≠ "") (huid : uid ≠ "") :
    ((ch.BanUser target uid (some m) t).callerOptions.isSome ∧
     mapGet ((ch.BanUser target uid (some m) t).callerOptions.getD []) "type" =
       some (.str ch.type) ∧
     mapGet ((ch.BanUser target uid (some m) t).callerOptions.getD []) "id" =
       some (.str ch.id) ∧
     mapGet ((ch.BanUser target uid (some m) t).callerOptions.getD []) "target_user_id" =
       some (.str target) ∧
     mapGet ((ch.BanUser target uid (some m) t).callerOptions.getD []) "user_id" =
       some (.str uid)) ∧
    ((ch.UnBanUser target (some sm) t1).callerOptions.isSome ∧
     smapGet ((ch.UnBanUser target (some sm) t1).callerOptions.getD []) "type" =
       some ch.type ∧
     smapGet ((ch.UnBanUser target (some sm) t1).callerOptions.getD []) "id" =
       some ch.id ∧
     smapGet ((ch.UnBanUser target (some sm) t1).callerOptions.getD []) "target_user_id" =
       some target) ∧
    ((ch.MarkRead uid (some mo) t2).callerOptions.isSome ∧
     mapGet ((ch.MarkRead uid (some mo) t2).callerOptions.getD []) "user" =
       some (.obj [("id", .str uid)])) ∧
    ((ch.query opts (some d) t3).isSome ∧
     mapGet (queryCallerData (ch.query opts (some d) t3)) "created_by" =
       some (.obj [("id", .str u.id)])) := by
  have hbo : (ch.BanUser target uid (some m) t).callerOptions =
      some (mapSet (mapSet (mapSet (mapSet m "type" (.str ch.type)) "id" (.str ch.id))
        "target_user_id" (.str target)) "user_id" (.str uid)) := by
    unfold Channel.BanUser
    rw [if_neg htarget, if_neg huid]
    rfl
  have hun : (ch.UnBanUser target (some sm) t1).callerOptions =
      some (smapSet (smapSet (smapSet sm "type" ch.type) "id" ch.id)
        "target_user_id" target) := by
    unfold Channel.UnBanUser
    rw [if_neg htarget]
    rfl
  have hmr : (ch.MarkRead uid (some mo) t2).callerOptions =
      some (mapSet mo "user" (.obj [("id", .str uid)])) := by
    unfold Channel.MarkRead
    rw [if_neg huid]
    rfl
  refine ⟨⟨?_, ?_, ?_, ?_, ?_⟩, ⟨?_, ?_, ?_, ?_⟩, ⟨?_, ?_⟩, ?_, ?_⟩
  · rw [hbo]
    rfl
  · rw [hbo, Option.getD_some, mapGet_mapSet_of_ne (by decide),
        mapGet_mapSet_of_ne (by decide), mapGet_mapSet_of_ne (by decide), mapGet_mapSet_self]
  · rw [hbo, Option.getD_some, mapGet_mapSet_of_ne (by decide),
        mapGet_mapSet_of_ne (by decide), mapGet_mapSet_self]
  · rw [hbo, Option.getD_some, mapGet_mapSet_of_ne (by decide), mapGet_mapSet_self]
  · rw [hbo, Option.getD_some, mapGet_mapSet_self]
  · rw [hun]
    rfl
  · rw [hun, Option.getD_some, smapGet_smapSet_of_ne (by decide),
        smapGet_smapSet_of_ne (by decide), smapGet_smapSet_self]
  · rw [hun, Option.getD_some, smapGet_smapSet_of_ne (by decide), smapGet_smapSet_self]
  · rw [hun, Option.getD_some, smapGet_smapSet_self]
  · rw [hmr]
    rfl
  · rw [hmr, Option.getD_some, mapGet_mapSet_self]
  · cases t3 <;> simp [Channel.query, hcb]
  · cases t3 <;> simp [Channel.query, hcb, queryCallerData, mapGet_mapSet_self]

/-- Witness for `ops_mutate_caller_maps` at concrete arguments. -/
theorem ops_mutate_caller_maps_witness :
    ((chW.BanUser "bob" "alice" (some [("reason", .str "spam")]) (.ok {})).callerOptions.isSome ∧
     mapGet ((chW.BanUser "bob" "alice" (some [("reason", .str "spam")])
        (.ok {})).callerOptions.getD []) "type" = some (.str chW.type) ∧
     mapGet ((chW.BanUser "bob" "alice" (some [("reason", .str "spam")])
        (.ok {})).callerOptions.getD []) "id" = some (.str chW.id) ∧
     mapGet ((chW.BanUser "bob" "alice" (some [("reason", .str "spam")])
        (.ok {})).callerOptions.getD []) "target_user_id" = some (.str "bob") ∧
     mapGet ((chW.BanUser "bob" "alice" (some [("reason", .str "spam")])
        (.ok {})).callerOptions.getD []) "user_id" = some (.str "alice")) ∧
    ((chW.UnBanUser "bob" (some [("x", "y")]) (.ok {})).callerOptions.isSome ∧
     smapGet ((chW.UnBanUser "bob" (some [("x", "y")]) (.ok {})).callerOptions.getD [])
       "type" = some chW.type ∧
     smapGet ((chW.UnBanUser "bob" (some [("x", "y")]) (.ok {})).callerOptions.getD [])
       "id" = some chW.id ∧
     smapGet ((chW.UnBanUser "bob" (some [("x", "y")]) (.ok {})).callerOptions.getD [])
       "target_user_id" = some "bob") ∧
    ((chW.MarkRead "alice" (some []) (.ok {})).callerOptions.isSome ∧
     mapGet ((chW.MarkRead "alice" (some []) (.ok {})).callerOptions.getD []) "user" =
       some (.obj [("id", .str "alice")])) ∧
    ((chW.query [] (some []) (.ok {})).isSome ∧
     mapGet (queryCallerData (chW.query [] (some []) (.ok {}))) "created_by" =
       some (.obj [("id", .str "alice")])) :=
  ops_mutate_caller_maps chW { id := "alice" } [] [("reason", .str "spam")] [] []
    [("x", "y")] "bob" "alice" (.ok {}) (.ok {}) (.ok {}) (.ok {}) rfl (by decide) (by decide)

/-- Claim C3: evaluating `CreateChannel` at an empty channel ID: the code returns
the `channel ID is empty` validation error and issues no request, whether or
not members data is present in the extra-data map — although the spec and
the repository's create-channel test expect the with-members case to succeed
with a server-assigned ID. -/
theorem create_empty_id_with_members_errors :
    CreateChannel 7 { type := "messaging", id := "",
                      data := some [("members", .strList ["u1", "u2"])] } "creator" (.ok {}) =
      some { channel := none, error := some "channel ID is empty", request := none,
             callerData := some [("members", .strList ["u1", "u2"])] } ∧
    CreateChannel 7 { type := "messaging", id := "", data := none } "creator" (.ok {}) =
      some { channel := none, error := some "channel ID is empty", request := none,
             callerData := none } := by
  constructor <;> rfl

end StreamChat
